import Mathlib

/-!
Shallow embedding of `src/analyzer.py` (ai-review-analyzer).

The program loads a CSV of reviews, renders a prompt, tries a fixed list of
model identifiers against an external generation endpoint, strips Markdown
code fences from the reply, parses it as JSON, prints a report and saves it.
Pure string/list computations are translated directly; the external effects
(pandas CSV parsing result, the generation endpoint, file I/O) appear as
explicit parameters.
-/

namespace Analyzer

/-- Decidable equality for `Except`, so that concrete runs of the embedded
functions can be checked with `decide`. -/
instance {ε α : Type _} [DecidableEq ε] [DecidableEq α] :
    DecidableEq (Except ε α) := fun x y =>
  match x, y with
  | .error a, .error b =>
    if h : a = b then .isTrue (by rw [h]) else .isFalse (by simp [h])
  | .ok a, .ok b =>
    if h : a = b then .isTrue (by rw [h]) else .isFalse (by simp [h])
  | .error _, .ok _ => .isFalse (fun h => Except.noConfusion h)
  | .ok _, .error _ => .isFalse (fun h => Except.noConfusion h)

/-- The backtick character (used by the Markdown fence logic). -/
def btChar : Char := Char.ofNat 96

/-- Whitespace characters recognised by Python `str.strip()` (ASCII range). -/
def isPySpace (c : Char) : Bool :=
  c = ' ' || c = '\t' || c = '\n' || c = '\r' || c = '\x0b' || c = '\x0c'

/-- Python `str.strip()` on a character list: drop whitespace from both ends. -/
def pyStripL (l : List Char) : List Char :=
  ((l.dropWhile isPySpace).reverse.dropWhile isPySpace).reverse

/-- Python `str.strip()`. -/
def pyStrip (s : String) : String := String.mk (pyStripL s.data)

/-- Does the list contain an occurrence of three consecutive backticks? -/
def hasTicks : List Char → Bool
  | c1 :: c2 :: c3 :: rest =>
    if c1 = btChar ∧ c2 = btChar ∧ c3 = btChar then true
    else hasTicks (c2 :: c3 :: rest)
  | _ => false

/-- Prepend a character to the first segment of a split result. -/
def consHead (c : Char) : List (List Char) → List (List Char)
  | [] => [[c]]
  | s :: ss => (c :: s) :: ss

/-- Python `s.split(sep)` specialised to the three-backtick separator used at
`src/analyzer.py:161`: split on each non-overlapping occurrence, left to
right. -/
def splitTicks : List Char → List (List Char)
  | [] => [[]]
  | [c] => [[c]]
  | [c1, c2] => [[c1, c2]]
  | c1 :: c2 :: c3 :: rest =>
    if c1 = btChar ∧ c2 = btChar ∧ c3 = btChar then [] :: splitTicks rest
    else consHead c1 (splitTicks (c2 :: c3 :: rest))

/-- Python `s.replace(sep, "")` specialised to the three-backtick separator
used at `src/analyzer.py:164`: remove each non-overlapping occurrence, left to
right. -/
def replaceTicks : List Char → List Char
  | [] => []
  | [c] => [c]
  | [c1, c2] => [c1, c2]
  | c1 :: c2 :: c3 :: rest =>
    if c1 = btChar ∧ c2 = btChar ∧ c3 = btChar then replaceTicks rest
    else c1 :: replaceTicks (c2 :: c3 :: rest)

/-- The three-backtick fence. -/
def tick3 : List Char := [btChar, btChar, btChar]

/-- Cleaning of the raw model reply, `src/analyzer.py:147` and
`src/analyzer.py:160-164`: strip whitespace; if the text starts with a fence,
split on the fence, keep the segment after the opening fence, drop a leading
`json` token; then remove remaining fences and re-trim. -/
def clean_responseL (l : List Char) : List Char :=
  let t1 := pyStripL l
  let t2 :=
    if tick3.isPrefixOf t1 then
      let seg := (splitTicks t1).getD 1 []
      if ("json".data).isPrefixOf seg then seg.drop 4 else seg
    else t1
  pyStripL (replaceTicks t2)

/-- String version of `clean_responseL`. -/
def clean_response (s : String) : String := String.mk (clean_responseL s.data)

/-! ## Data loader (`analizza_dati`, `src/analyzer.py:56-74`)

A parsed CSV table (the result of `pd.read_csv`) is modelled column-wise: a
list of named columns, each a list of cells, where `none` is a NaN/null cell
and `some s` a string cell. -/

/-- A parsed CSV table, as produced by `pd.read_csv`. -/
structure DataFrame where
  cols : List (String × List (Option String))
deriving DecidableEq

/-- The header, `df.columns`. -/
def DataFrame.columns (df : DataFrame) : List String := df.cols.map (·.1)

/-- The cells of the named column (`df[name]`); `[]` when absent (the code
only reads columns whose presence it has checked). -/
def getCol (df : DataFrame) (name : String) : List (Option String) :=
  ((df.cols.find? (fun p => p.1 = name)).map (·.2)).getD []

/-- The column-wise assignment `df[name] = df[name].fillna('')`
(`src/analyzer.py:66`): null cells of the named column become empty strings,
other columns are untouched. -/
def fillna (df : DataFrame) (name : String) : DataFrame :=
  ⟨df.cols.map (fun p =>
    if p.1 = name then (p.1, p.2.map (fun c => some (c.getD ""))) else p)⟩

/-- Pandas `.astype(str)` on one cell: a null cell prints as the literal
string `nan`, a string cell is unchanged. -/
def astype_str : Option String → String
  | none => "nan"
  | some s => s

/-- The hardcoded override column name (`src/analyzer.py:68`). -/
def overrideCol : String := "a-size-base 3"

/-- `reviews_list` (`src/analyzer.py:66-71`): fill nulls of `column_name`
with the empty string, then take the first `max_reviews` string-converted
cells of the override column when present, of `column_name` otherwise. -/
def reviews_list (df : DataFrame) (max_reviews : Nat) (column_name : String) :
    List String :=
  let df1 := fillna df column_name
  if overrideCol ∈ df1.columns then
    ((getCol df1 overrideCol).map astype_str).take max_reviews
  else
    ((getCol df1 column_name).map astype_str).take max_reviews

/-- The filter of the list comprehension at `src/analyzer.py:72`:
`if rev.strip() and rev != 'nan'`. -/
def keep (rev : String) : Bool := (pyStrip rev ≠ "") && (rev ≠ "nan")

/-- One rendered block `f"Recensione {i+1}: {rev}"` (`src/analyzer.py:72`). -/
def renderBlock (n : Nat) (rev : String) : String :=
  "Recensione " ++ toString n ++ ": " ++ rev

/-- The list comprehension at `src/analyzer.py:72`: enumerate the truncated
list, keep the rows passing `keep`, render each with its 1-based enumeration
index. -/
def review_blocks (lst : List String) : List String :=
  (lst.enum.filter (fun p => keep p.2)).map (fun p => renderBlock (p.1 + 1) p.2)

/-- The joined review text `"\n\n".join(...)` (`src/analyzer.py:72`). -/
def rendered_reviews (lst : List String) : String :=
  String.intercalate "\n\n" (review_blocks lst)

/-- Loader errors. `schemaError` is the `ValueError` raised at
`src/analyzer.py:63`, carrying the requested column and the available
header. -/
inductive LoadError where
  | schemaError (requested : String) (available : List String)
deriving DecidableEq

/-- The data-preparation part of `analizza_dati` (`src/analyzer.py:62-74`):
check that `column_name` is in the header (else raise), then build the
rendered blocks and the pre-filter truncated count `len(reviews_list)`. -/
def analizza_prepare (df : DataFrame) (max_reviews : Nat)
    (column_name : String) : Except LoadError (List String × Nat) :=
  if column_name ∈ df.columns then
    let lst := reviews_list df max_reviews column_name
    .ok (review_blocks lst, lst.length)
  else
    .error (.schemaError column_name df.columns)

/-! ## Prompt builder (`src/analyzer.py:99-126`) -/

/-- The f-string prompt of `analizza_dati`: the fixed instruction text with
the pre-filter truncated count `len(reviews_list)` spliced into the JSON
skeleton's `numero_recensioni_analizzate` field and the rendered review text
spliced after `FEEDBACK DA ANALIZZARE:`. -/
def build_prompt (reviews : String) (n : Nat) : String :=
  "\n    Agisci come un esperto analista di dati, consulente strategico e specialista di sentiment analysis.\n"
  ++ "    Analizza attentamente i seguenti feedback dei clienti e restituisci un output ESCLUSIVAMENTE in formato JSON valido.\n"
  ++ "    \n"
  ++ "    Struttura JSON richiesta (rispetta esattamente questa struttura):\n"
  ++ "    \x7b\n"
  ++ "      \"sentiment_score\": 75,\n"
  ++ "      \"sentiment_label\": \"Positivo/Neutrale/Negativo\",\n"
  ++ "      \"numero_recensioni_analizzate\": " ++ toString n ++ ",\n"
  ++ "      \"punti_critici\": [\n"
  ++ "        \x7b\"problema\": \"descrizione problema\", \"frequenza\": \"alta/media/bassa\", \"impatto\": \"alto/medio/basso\"\x7d,\n"
  ++ "        \x7b\"problema\": \"descrizione problema\", \"frequenza\": \"alta/media/bassa\", \"impatto\": \"alto/medio/basso\"\x7d\n"
  ++ "      ],\n"
  ++ "      \"vantaggi_competitivi\": [\n"
  ++ "        \x7b\"vantaggio\": \"descrizione pregio\", \"menzioni\": \"numero stimato di menzioni\"\x7d,\n"
  ++ "        \x7b\"vantaggio\": \"descrizione pregio\", \"menzioni\": \"numero stimato di menzioni\"\x7d\n"
  ++ "      ],\n"
  ++ "      \"temi_ricorrenti\": [\"tema 1\", \"tema 2\", \"tema 3\"],\n"
  ++ "      \"consiglio_ingegneristico\": \"descrizione tecnica dettagliata per migliorare il prodotto\",\n"
  ++ "      \"strategia_marketing\": \"strategia comunicativa basata sui dati per migliorare la percezione del cliente\",\n"
  ++ "      \"priorita_intervento\": [\"azione prioritaria 1\", \"azione prioritaria 2\", \"azione prioritaria 3\"]\n"
  ++ "    \x7d\n"
  ++ "\n"
  ++ "    FEEDBACK DA ANALIZZARE:\n"
  ++ "    " ++ reviews ++ "\n"
  ++ "    \n"
  ++ "    Rispondi SOLO con il JSON, senza testo aggiuntivo prima o dopo.\n"
  ++ "    "

/-- The prompt actually built by `analizza_dati` after a successful load:
`build_prompt` applied to the joined blocks and `len(reviews_list)`. -/
def analizza_prompt (df : DataFrame) (max_reviews : Nat)
    (column_name : String) : Except LoadError String :=
  (analizza_prepare df max_reviews column_name).map
    (fun p => build_prompt (String.intercalate "\n\n" p.1) p.2)

/-! ## Model invoker (`src/analyzer.py:129-184`)

The external generation endpoint is a parameter `respond`: for a model
identifier it either raises (`endpointError`, the generic `except Exception`
arm at `src/analyzer.py:177`) or returns a raw text reply.  JSON parsing
(`json.loads`) is a parameter `parse` into an arbitrary result type: `.ok`
is a parsed structure, `.error` carries the decode-error message
(`json.JSONDecodeError`, `src/analyzer.py:171`). -/

/-- Outcome of one call to the external generation endpoint. -/
inductive Outcome where
  | endpointError (e : String)
  | reply (text : String)

/-- Errors recorded by the invoker loop:
`parseFailure` is the `ValueError` built at `src/analyzer.py:174` wrapping
the JSON decode error of the named model, `endpointFailure` the raw error of
the endpoint call, and `exhausted` the generic
`Exception("Impossibile generare contenuto...")` of `src/analyzer.py:184`. -/
inductive InvokeError where
  | parseFailure (model : String) (decodeError : String)
  | endpointFailure (model : String) (e : String)
  | exhausted
deriving DecidableEq

/-- One iteration of the `for model_name in model_names` loop body
(`src/analyzer.py:132-180`): call the endpoint, strip/clean the reply, parse
it; an endpoint error or a decode error is turned into the recorded error. -/
def attemptResult {α : Type} (parse : String → Except String α)
    (respond : String → Outcome) (m : String) : Except InvokeError α :=
  match respond m with
  | .endpointError e => .error (.endpointFailure m e)
  | .reply t =>
    match parse (clean_response t) with
    | .ok j => .ok j
    | .error e => .error (.parseFailure m e)

/-- The invoker loop (`src/analyzer.py:129-184`): try each model in order,
return the first successfully parsed structure; on failure remember the
error (`last_error`) and continue; when the list is exhausted raise the last
recorded error, or the generic exhaustion error if none was recorded. -/
def try_models {α : Type} (parse : String → Except String α)
    (respond : String → Outcome) :
    List String → Option InvokeError → Except InvokeError α
  | [], lastError => .error (lastError.getD .exhausted)
  | m :: rest, _ =>
    match attemptResult parse respond m with
    | .ok j => .ok j
    | .error e => try_models parse respond rest (some e)

/-- The fixed candidate list `model_names` (`src/analyzer.py:91-97`). -/
def model_names : List String :=
  ["models/gemini-2.5-flash", "models/gemini-2.0-flash",
   "models/gemini-flash-latest", "models/gemini-2.5-pro",
   "models/gemini-pro-latest"]

/-- The error recorded for an (assumed failing) attempt at model `m`. -/
def errorOfAttempt {α : Type} (parse : String → Except String α)
    (respond : String → Outcome) (m : String) : InvokeError :=
  match attemptResult parse respond m with
  | .error e => e
  | .ok _ => .exhausted

/-! ## Result presenter (`stampa_report`, `src/analyzer.py:196-237`)

The parsed JSON structure is a Python value: -/

/-- A Python value as produced by `json.loads`. -/
inductive JValue where
  | null
  | bool (b : Bool)
  | num (n : Int)
  | str (s : String)
  | arr (xs : List JValue)
  | obj (fields : List (String × JValue))

/-- Python `str()` as used inside the report f-strings.  Scalars are rendered
exactly; the `repr`-style rendering of composite values (which no claim
exercises) is modelled by fixed tokens. -/
def pyStr : JValue → String
  | .null => "None"
  | .bool b => if b then "True" else "False"
  | .num n => toString n
  | .str s => s
  | .arr _ => "[...]"
  | .obj _ => "\x7b...\x7d"

/-- Python iteration over a value (`for x in v`): lists yield their elements,
strings their characters, dicts their keys; other values raise `TypeError`. -/
def pyIterList : JValue → Except String (List JValue)
  | .arr xs => .ok xs
  | .str s => .ok (s.data.map (fun c => JValue.str (String.mk [c])))
  | .obj fs => .ok (fs.map (fun p => JValue.str p.1))
  | _ => .error "TypeError: object is not iterable"

/-- Lookup of a key in a parsed JSON object (association list). -/
def field? (r : List (String × JValue)) (k : String) : Option JValue :=
  (r.find? (fun p => p.1 = k)).map (·.2)

/-- Python `dict.get(k, default)`. -/
def dget (r : List (String × JValue)) (k : String) (dflt : JValue) : JValue :=
  (field? r k).getD dflt

/-- The banner `"="*80`. -/
def eq80 : String := String.mk (List.replicate 80 '=')

/-- The lines printed for one critical point (`src/analyzer.py:207-212`):
two lines when the element is a dict (with `punto.get('problema', punto)` and
the frequency/impact line), one line otherwise. -/
def puntoLines : Nat × JValue → List String
  | (i, .obj fs) =>
    ["   " ++ toString i ++ ". " ++ pyStr (dget fs "problema" (.obj fs)),
     "      Frequenza: " ++ pyStr (dget fs "frequenza" (.str "N/A"))
       ++ " | Impatto: " ++ pyStr (dget fs "impatto" (.str "N/A"))]
  | (i, p) => ["   " ++ toString i ++ ". " ++ pyStr p]

/-- The line printed for one competitive advantage
(`src/analyzer.py:215-219`). -/
def vantaggioLine : Nat × JValue → String
  | (i, .obj fs) => "   " ++ toString i ++ ". " ++ pyStr (dget fs "vantaggio" (.obj fs))
  | (i, v) => "   " ++ toString i ++ ". " ++ pyStr v

/-- The recurring-themes section (`src/analyzer.py:221-224`): printed only
when the key is present; iterating its value can raise. -/
def temiSection (r : List (String × JValue)) : Except String (List String) :=
  match field? r "temi_ricorrenti" with
  | some v => do
      let temi ← pyIterList v
      pure ("\n🔍 TEMI RICORRENTI:" :: temi.map (fun t => "   • " ++ pyStr t))
  | none => pure []

/-- The prioritized-actions section (`src/analyzer.py:232-235`): printed
only when the key is present; iterating its value can raise. -/
def prioSection (r : List (String × JValue)) : Except String (List String) :=
  match field? r "priorita_intervento" with
  | some v => do
      let prio ← pyIterList v
      pure ("\n🎯 PRIORITÀ DI INTERVENTO:" ::
        (prio.enumFrom 1).map
          (fun p => "   " ++ toString p.1 ++ ". " ++ pyStr p.2))
  | none => pure []

/-- `stampa_report` (`src/analyzer.py:196-237`), modelled as the sequence of
printed lines; `.error` is an uncaught Python exception (the function has no
handler, so e.g. iterating a non-iterable field propagates a `TypeError`). -/
def stampa_report (r : List (String × JValue)) : Except String (List String) := do
  let punti ← pyIterList (dget r "punti_critici" (.arr []))
  let vantaggi ← pyIterList (dget r "vantaggi_competitivi" (.arr []))
  let temiLines ← temiSection r
  let prioLines ← prioSection r
  pure (["\n" ++ eq80, "📊 REPORT ANALISI RECENSIONI", eq80,
    "\n🎯 Sentiment Score: " ++ pyStr (dget r "sentiment_score" (.str "N/A")) ++ "/100",
    "📈 Sentiment: " ++ pyStr (dget r "sentiment_label" (.str "N/A")),
    "📝 Recensioni analizzate: " ++ pyStr (dget r "numero_recensioni_analizzate" (.str "N/A")),
    "\n⚠️  PUNTI CRITICI:"]
    ++ ((punti.enumFrom 1).map puntoLines).flatten
    ++ ["\n✅ VANTAGGI COMPETITIVI:"]
    ++ (vantaggi.enumFrom 1).map vantaggioLine
    ++ temiLines
    ++ ["\n🔧 CONSIGLIO INGEGNERISTICO:",
        "   " ++ pyStr (dget r "consiglio_ingegneristico" (.str "N/A")),
        "\n📢 STRATEGIA MARKETING:",
        "   " ++ pyStr (dget r "strategia_marketing" (.str "N/A"))]
    ++ prioLines
    ++ ["\n" ++ eq80 ++ "\n"])

/-! ## Persistence (`salva_risultati`, `src/analyzer.py:186-193`) -/

/-- `salva_risultati`: the body is one `try/except` around the file write
(modelled by its outcome `writeOutcome`); the result is the pair of the log
lines emitted and the returned value.  An I/O error is logged and swallowed:
the function always returns normally. -/
def salva_risultati (output_file : String)
    (writeOutcome : Except String Unit) : List String × Except String Unit :=
  match writeOutcome with
  | .ok _ => (["Risultati salvati in: " ++ output_file], .ok ())
  | .error e => (["Errore nel salvataggio dei risultati: " ++ e], .ok ())

/-! ## Auxiliary definitions used by the statements below -/

/-- The text cells of the column that `analizza_dati` reads
(`src/analyzer.py:66-71`) before truncation: the override column when
present, the caller-supplied column otherwise, after the `fillna` step. -/
def chosen_texts (df : DataFrame) (column_name : String) : List String :=
  let df1 := fillna df column_name
  if overrideCol ∈ df1.columns then (getCol df1 overrideCol).map astype_str
  else (getCol df1 column_name).map astype_str

/-- The enumerated rows of the truncated slice that survive the filter of
`src/analyzer.py:72` (those rendered into blocks). -/
def kept_rows (lst : List String) : List (Nat × String) :=
  lst.enum.filter (fun p => keep p.2)

/-- A field that is either absent or bound to a JSON array. -/
def arrIfPresent : Option JValue → Bool
  | none => true
  | some (.arr _) => true
  | some _ => false

/-- Concrete fixture: a parser that accepts everything (for runs where the
reply parses). -/
def parseConstNat : String → Except String Nat := fun _ => .ok 7

/-- Concrete fixture: an endpoint where the first model is unavailable and
the others reply. -/
def respondC4 : String → Outcome := fun m =>
  if m = "m1" then .endpointError "unavailable" else .reply "7"

/-- Concrete fixture: a parser that always reports a decode error. -/
def parseAlwaysFail : String → Except String Nat :=
  fun _ => .error "Expecting value: line 1 column 1 (char 0)"

/-- Concrete fixture: an endpoint that always replies with non-JSON text. -/
def respondReply : String → Outcome := fun _ => .reply "not json"

/-- Did the computation succeed (no exception)? -/
def exceptOk {ε α : Type _} : Except ε α → Bool
  | .ok _ => true
  | .error _ => false

/-! # Theorems -/

/-! ## C9 — persistence errors are logged and swallowed -/

/-- C9: for every output path and every outcome of the file write,
`salva_risultati` returns normally (never propagates the error), and a write
error is logged. -/
theorem salva_swallows_io_errors (output_file : String)
    (w : Except String Unit) :
    (salva_risultati output_file w).2 = .ok ()
    ∧ (∀ e, w = .error e →
        (salva_risultati output_file w).1
          = ["Errore nel salvataggio dei risultati: " ++ e]) := by
  cases w <;> simp [salva_risultati]

/-- C9 witness: a concrete failing write is swallowed and logged. -/
theorem salva_swallows_io_errors_witness :
    (salva_risultati "analisi_risultati.json" (.error "disk full")).2 = .ok ()
    ∧ (salva_risultati "analisi_risultati.json" (.error "disk full")).1
        = ["Errore nel salvataggio dei risultati: " ++ "disk full"] :=
  ⟨(salva_swallows_io_errors "analisi_risultati.json" (.error "disk full")).1,
   (salva_swallows_io_errors "analisi_risultati.json" (.error "disk full")).2
     "disk full" rfl⟩

/-! ## C1 — the schema check is on `column_name` alone -/

/-- The `fillna` assignment does not change the header. -/
theorem fillna_columns (df : DataFrame) (name : String) :
    (fillna df name).columns = df.columns := by
  simp only [fillna, DataFrame.columns, List.map_map]
  apply List.map_congr_left
  intro p _
  by_cases h : p.1 = name <;> simp [h]

/-- C1 counterexample: with header `["a-size-base 3"]` and caller-supplied
`column_name = "body"` the claim asserts a successful load using the
override column, but the loader raises the schema error (the check at
`src/analyzer.py:62` runs before the override selection at
`src/analyzer.py:68`). -/
theorem override_does_not_rescue_missing_column :
    analizza_prepare ⟨[("a-size-base 3", [some "great"])]⟩ 50 "body"
      = .error (.schemaError "body" ["a-size-base 3"]) := by decide

/-- C1 (amended): the loader fails with the schema error naming the
available columns exactly when `column_name` is absent from the header —
even when the override column is present; when `column_name` is present the
load succeeds, and the override column is the one rendered whenever it is
present. -/
theorem schema_error_iff_column_name_missing (df : DataFrame)
    (max_reviews : Nat) (cn : String) :
    (analizza_prepare df max_reviews cn
        = .error (.schemaError cn df.columns) ↔ cn ∉ df.columns)
    ∧ (cn ∈ df.columns →
        analizza_prepare df max_reviews cn
          = .ok (review_blocks (reviews_list df max_reviews cn),
                 (reviews_list df max_reviews cn).length))
    ∧ (cn ∈ df.columns → overrideCol ∈ df.columns →
        reviews_list df max_reviews cn
          = ((getCol (fillna df cn) overrideCol).map astype_str).take
              max_reviews) := by
  by_cases hmem : cn ∈ df.columns
  · refine ⟨by simp [analizza_prepare, hmem], fun _ => by simp [analizza_prepare, hmem], fun _ hov => ?_⟩
    have hov1 : overrideCol ∈ (fillna df cn).columns := by
      simpa [fillna_columns] using hov
    simp [reviews_list, hov1]
  · exact ⟨by simp [analizza_prepare, hmem], fun h => absurd h hmem,
      fun h => absurd h hmem⟩

/-- C1 witness: with both columns present the load succeeds and renders the
override column's text. -/
theorem schema_error_iff_column_name_missing_witness :
    analizza_prepare ⟨[("body", [some "hi"]), ("a-size-base 3", [some "top"])]⟩
        3 "body"
      = .ok (["Recensione 1: top"], 1) :=
  (schema_error_iff_column_name_missing
      ⟨[("body", [some "hi"]), ("a-size-base 3", [some "top"])]⟩ 3 "body").2.1
    (by decide)

/-! ## C6 — the `nan` comparison is on the raw, untrimmed text -/

/-- C6 counterexample: the claim says the row `" nan "` (literal `nan` with
surrounding whitespace) is excluded, but `rev != 'nan'` at
`src/analyzer.py:72` compares the raw string, so the row is rendered. -/
theorem trimmed_nan_is_rendered :
    review_blocks [" nan "] = ["Recensione 1:  nan "] := by decide

/-- C6 (amended): a row of the truncated slice is excluded from the rendered
block iff its trimmed text is empty or its raw (untrimmed) text is exactly
the literal `nan`; a value like `" nan "` is therefore included. -/
theorem row_exclusion_criterion (lst : List String) (i : Nat)
    (h : i < lst.length) :
    ((i, lst.get ⟨i, h⟩) ∉ kept_rows lst)
      ↔ (pyStrip (lst.get ⟨i, h⟩) = "" ∨ lst.get ⟨i, h⟩ = "nan") := by
  have hmem : (i, lst.get ⟨i, h⟩) ∈ lst.enum := by
    apply List.getElem?_mem (n := i)
    simp [List.enum_eq_enumFrom, List.getElem?_enumFrom,
      List.getElem?_eq_getElem h]
  unfold kept_rows
  simp only [List.mem_filter, hmem, true_and, keep, Bool.and_eq_true,
    decide_eq_true_eq, not_and_or, not_not, ne_eq]

/-- C6 witness: the blank row of `["ok", ""]` is excluded. -/
theorem row_exclusion_criterion_witness :
    ((1, (["ok", ""].get ⟨1, by decide⟩)) ∉ kept_rows ["ok", ""])
      ↔ (pyStrip (["ok", ""].get ⟨1, by decide⟩) = ""
          ∨ (["ok", ""].get ⟨1, by decide⟩) = "nan") :=
  row_exclusion_criterion ["ok", ""] 1 (by decide)

/-! ## C7 — null coercion depends on which column is chosen -/

/-- `fillna` preserves each pair's key, so searching the filled table is
searching the original one. -/
theorem find?_fillna (cols : List (String × List (Option String)))
    (name other : String) :
    ((fillna ⟨cols⟩ name).cols.find? (fun p => p.1 = other))
      = (cols.find? (fun p => p.1 = other)).map
          (fun p => if p.1 = name then
            (p.1, p.2.map (fun c => some (c.getD ""))) else p) := by
  simp only [fillna, List.find?_map]
  congr 1
  congr 1
  funext p
  by_cases h : p.1 = name <;> simp [h]

/-- `fillna` on one column leaves the other columns unchanged. -/
theorem getCol_fillna_ne (df : DataFrame) (name other : String)
    (hne : other ≠ name) :
    getCol (fillna df name) other = getCol df other := by
  obtain ⟨cols⟩ := df
  simp only [getCol, find?_fillna]
  cases hf : cols.find? (fun p => p.1 = other) with
  | none => rfl
  | some q =>
    have hq : q.1 = other := by simpa using List.find?_some hf
    have hqn : ¬ q.1 = name := by rw [hq]; exact hne
    simp [hqn]

/-- `fillna` on the named column blanks exactly its null cells. -/
theorem getCol_fillna_self (df : DataFrame) (name : String) :
    getCol (fillna df name) name
      = (getCol df name).map (fun c => some (c.getD "")) := by
  obtain ⟨cols⟩ := df
  simp only [getCol, find?_fillna]
  cases hf : cols.find? (fun p => p.1 = name) with
  | none => rfl
  | some q =>
    have hq : q.1 = name := by simpa using List.find?_some hf
    simp [hq]

/-- C7 counterexample: with `column_name = "body"` and a null cell in the
override column, the prepared review text is the literal string `"nan"`
(pandas `astype(str)`), not the empty string: `fillna('')` at
`src/analyzer.py:66` only touches the `column_name` column. -/
theorem override_null_is_not_blanked :
    reviews_list ⟨[("body", [some "x"]), ("a-size-base 3", [none])]⟩ 50 "body"
        ≠ [""]
    ∧ reviews_list ⟨[("body", [some "x"]), ("a-size-base 3", [none])]⟩ 50 "body"
        = ["nan"] := by
  constructor <;> decide

/-- C7 (amended): null cells are coerced to the empty string only in the
caller-supplied `column_name` column; when the override column is chosen and
differs from `column_name`, its null cells become the string `"nan"` via
`astype(str)` (and are then dropped by the `nan` filter, not rendered as
empty text). -/
theorem null_coercion_depends_on_chosen_column (df : DataFrame) (cn : String)
    (max_reviews i : Nat) (hi : i < max_reviews) :
    (overrideCol ∈ df.columns → cn ≠ overrideCol →
      (getCol df overrideCol)[i]? = some none →
      (reviews_list df max_reviews cn)[i]? = some "nan")
    ∧ (overrideCol ∉ df.columns →
      (getCol df cn)[i]? = some none →
      (reviews_list df max_reviews cn)[i]? = some "") := by
  constructor
  · intro hov hne hcell
    have hov1 : overrideCol ∈ (fillna df cn).columns := by
      simpa [fillna_columns] using hov
    have hsel : reviews_list df max_reviews cn
        = ((getCol (fillna df cn) overrideCol).map astype_str).take
            max_reviews := by
      simp [reviews_list, hov1]
    rw [hsel, List.getElem?_take_of_lt hi, List.getElem?_map,
      getCol_fillna_ne df cn overrideCol (Ne.symm hne), hcell]
    rfl
  · intro hov hcell
    have hov1 : overrideCol ∉ (fillna df cn).columns := by
      simpa [fillna_columns] using hov
    have hsel : reviews_list df max_reviews cn
        = ((getCol (fillna df cn) cn).map astype_str).take max_reviews := by
      simp [reviews_list, hov1]
    rw [hsel, List.getElem?_take_of_lt hi, List.getElem?_map,
      getCol_fillna_self df cn, List.getElem?_map, hcell]
    rfl

/-- C7 witness: the concrete table of the counterexample, through the
amended theorem. -/
theorem null_coercion_depends_on_chosen_column_witness :
    (reviews_list ⟨[("body", [some "x"]), ("a-size-base 3", [none])]⟩ 50
        "body")[0]? = some "nan" :=
  (null_coercion_depends_on_chosen_column
      ⟨[("body", [some "x"]), ("a-size-base 3", [none])]⟩ "body" 50 0
      (by decide)).1 (by decide) (by decide) (by decide)

/-! ## C10 — block numbering is the 1-based slice position, with gaps -/

/-- C10: the rendered index of a kept row is its 1-based position in the
pre-filter truncated slice (independent of how many earlier rows were
excluded), so exclusions leave gaps in the numbering, as on
`["ok", "", "also ok"]`. -/
theorem block_numbering_is_slice_position :
    (∀ (lst : List String) (i : Nat) (h : i < lst.length),
        keep (lst.get ⟨i, h⟩) = true →
        renderBlock (i + 1) (lst.get ⟨i, h⟩) ∈ review_blocks lst)
    ∧ review_blocks ["ok", "", "also ok"]
        = ["Recensione 1: ok", "Recensione 3: also ok"] := by
  constructor
  · intro lst i h hk
    have hmem : (i, lst.get ⟨i, h⟩) ∈ lst.enum := by
      apply List.getElem?_mem (n := i)
      simp [List.enum_eq_enumFrom, List.getElem?_enumFrom,
        List.getElem?_eq_getElem h]
    unfold review_blocks
    exact List.mem_map_of_mem _ (List.mem_filter.mpr ⟨hmem, by simpa using hk⟩)
  · decide

/-- C10 witness: the first row of `["ok", ""]` renders with index 1. -/
theorem block_numbering_is_slice_position_witness :
    renderBlock 1 "ok" ∈ review_blocks ["ok", ""] :=
  block_numbering_is_slice_position.1 ["ok", ""] 0 (by decide) (by decide)

/-! ## C4 — the first successful parse is returned immediately -/

/-- C4: if the first candidate's attempt fails and the second candidate's
reply parses, the invoker returns the second's parsed structure, for every
continuation of the candidate list — no third candidate is attempted. -/
theorem first_success_returned {α : Type} (parse : String → Except String α)
    (respond : String → Outcome) (m1 m2 : String) (rest : List String) (j : α)
    (h1 : exceptOk (attemptResult parse respond m1) = false)
    (h2 : attemptResult parse respond m2 = .ok j) :
    try_models parse respond (m1 :: m2 :: rest) none = .ok j := by
  cases ha : attemptResult parse respond m1 with
  | ok v => rw [ha] at h1; simp [exceptOk] at h1
  | error e => simp [try_models, ha, h2]

/-- C4 witness: with the first model unavailable and the second replying
parseable text, the run over three candidates returns the second's value. -/
theorem first_success_returned_witness :
    try_models parseConstNat respondC4 ["m1", "m2", "m3"] none = .ok 7 :=
  first_success_returned parseConstNat respondC4 "m1" "m2" ["m3"] 7
    (by decide) (by decide)

/-! ## C3 — exhaustion raises the last recorded error -/

/-- An error recorded by a failing attempt is a parse or endpoint failure,
never the generic exhaustion error. -/
theorem attempt_error_ne_exhausted {α : Type} (parse : String → Except String α)
    (respond : String → Outcome) (m : String) (e : InvokeError)
    (h : attemptResult parse respond m = .error e) : e ≠ .exhausted := by
  cases hr : respond m with
  | endpointError s =>
    simp only [attemptResult, hr, Except.error.injEq] at h
    rw [← h]
    simp
  | reply t =>
    simp only [attemptResult, hr] at h
    cases hp : parse (clean_response t) with
    | ok j => simp [hp] at h
    | error s =>
      simp only [hp, Except.error.injEq] at h
      rw [← h]
      simp

/-- A failing attempt's recorded error, as extracted by `errorOfAttempt`,
is never the generic exhaustion error. -/
theorem errorOfAttempt_ne_exhausted {α : Type} (parse : String → Except String α)
    (respond : String → Outcome) (m : String)
    (h : exceptOk (attemptResult parse respond m) = false) :
    errorOfAttempt parse respond m ≠ .exhausted := by
  unfold errorOfAttempt
  cases ha : attemptResult parse respond m with
  | ok v => rw [ha] at h; simp [exceptOk] at h
  | error e => exact attempt_error_ne_exhausted parse respond m e ha

/-- The invoker loop under total failure: the result is the error recorded
for the last candidate, or the accumulator's content (defaulting to the
generic exhaustion error) when the list is empty. -/
theorem try_models_all_fail {α : Type} (parse : String → Except String α)
    (respond : String → Outcome) :
    ∀ (models : List String) (acc : Option InvokeError),
      (∀ m ∈ models, exceptOk (attemptResult parse respond m) = false) →
      try_models parse respond models acc
        = .error (match models.getLast? with
            | some m => errorOfAttempt parse respond m
            | none => acc.getD .exhausted) := by
  intro models
  induction models with
  | nil => intro acc _; simp [try_models]
  | cons m rest ih =>
    intro acc h
    have hm := h m (List.mem_cons_self m rest)
    cases ha : attemptResult parse respond m with
    | ok v => rw [ha] at hm; simp [exceptOk] at hm
    | error e =>
      have step : try_models parse respond (m :: rest) acc
          = try_models parse respond rest (some e) := by
        simp [try_models, ha]
      rw [step, ih (some e) (fun m' hm' => h m' (List.mem_cons_of_mem _ hm'))]
      cases rest with
      | nil => simp [errorOfAttempt, ha]
      | cons r rs =>
        obtain ⟨x, hx⟩ : ∃ x, (r :: rs).getLast? = some x :=
          ⟨(r :: rs).getLast (by simp),
            List.getLast?_eq_getLast (r :: rs) (by simp)⟩
        simp [List.getLast?_cons_cons, hx]

/-- C3: when every candidate fails, the invoker raises the error recorded
for the **last** candidate (for a parse failure, the `ValueError` wrapping
that candidate's decode error); the generic exhaustion error occurs exactly
when no error was recorded, i.e. when the candidate list is empty. -/
theorem last_error_raised {α : Type} (parse : String → Except String α)
    (respond : String → Outcome) (models : List String)
    (hfail : ∀ m ∈ models, exceptOk (attemptResult parse respond m) = false) :
    (∀ h : models ≠ [],
        try_models parse respond models none
          = .error (errorOfAttempt parse respond (models.getLast h)))
    ∧ (try_models parse respond models none = .error .exhausted
        ↔ models = []) := by
  have hmain := try_models_all_fail parse respond models none hfail
  constructor
  · intro h
    rw [hmain, List.getLast?_eq_getLast models h]
  · constructor
    · intro heq
      by_contra hne
      rw [hmain, List.getLast?_eq_getLast models hne] at heq
      simp only [Except.error.injEq] at heq
      exact errorOfAttempt_ne_exhausted parse respond (models.getLast hne)
        (hfail _ (List.getLast_mem hne)) heq
    · rintro rfl
      simp [try_models]

/-- C3 witness: both candidates reply unparseable text; the raised error is
the `ValueError` wrapping the **second** (last) model's decode error. -/
theorem last_error_raised_witness :
    try_models parseAlwaysFail respondReply ["m1", "m2"] none
      = .error (.parseFailure "m2" "Expecting value: line 1 column 1 (char 0)") :=
  (last_error_raised parseAlwaysFail respondReply ["m1", "m2"]
      (by decide)).1 (by decide)

/-! ## C2 — rendered count vs reported batch size -/

/-- `reviews_list` is the truncation of the chosen column's texts. -/
theorem reviews_list_eq_take (df : DataFrame) (max_reviews : Nat)
    (cn : String) :
    reviews_list df max_reviews cn = (chosen_texts df cn).take max_reviews := by
  unfold reviews_list chosen_texts
  by_cases h : overrideCol ∈ (fillna df cn).columns <;> simp [h]

/-- Filtering the enumerated list keeps as many rows as filtering the list
itself. -/
theorem length_filter_enumFrom (p : String → Bool) :
    ∀ (k : Nat) (lst : List String),
      ((List.enumFrom k lst).filter (fun q => p q.2)).length
        = (lst.filter p).length := by
  intro k lst
  induction lst generalizing k with
  | nil => rfl
  | cons x xs ih =>
    simp only [List.enumFrom, List.filter_cons]
    cases hx : p x <;> simp [hx, ih (k + 1)]

/-- The number of rendered blocks is the number of rows passing the filter. -/
theorem review_blocks_length (lst : List String) :
    (review_blocks lst).length = (lst.filter keep).length := by
  unfold review_blocks
  rw [List.length_map, List.enum_eq_enumFrom, length_filter_enumFrom keep 0 lst]

/-- C2: on a successful load, the rendered count is the number of rows that
survive the filter **after** truncation to the first `max_reviews` rows,
while the batch size reported into the prompt's
`numero_recensioni_analizzate` field is the pre-filter truncated count
`min(row_count, max_reviews)`. -/
theorem rendered_count_vs_batch_size (df : DataFrame) (max_reviews : Nat)
    (cn : String) (hcn : cn ∈ df.columns)
    (_hlt : (chosen_texts df cn).length < max_reviews) :
    ∃ blocks n, analizza_prepare df max_reviews cn = .ok (blocks, n)
      ∧ blocks.length
          = (((chosen_texts df cn).take max_reviews).filter keep).length
      ∧ n = min (chosen_texts df cn).length max_reviews
      ∧ analizza_prompt df max_reviews cn
          = .ok (build_prompt (String.intercalate "\n\n" blocks) n) := by
  refine ⟨review_blocks (reviews_list df max_reviews cn),
    (reviews_list df max_reviews cn).length, ?_, ?_, ?_, ?_⟩
  · simp [analizza_prepare, hcn]
  · rw [review_blocks_length, reviews_list_eq_take]
  · rw [reviews_list_eq_take, List.length_take, Nat.min_comm]
  · simp [analizza_prompt, analizza_prepare, hcn, Except.map]

/-- C2 witness: two usable rows, one blank, `max_reviews = 5`: one block is
rendered but the reported batch size is 2. -/
theorem rendered_count_vs_batch_size_witness :
    ∃ blocks n,
      analizza_prepare ⟨[("body", [some "good", some ""])]⟩ 5 "body"
        = .ok (blocks, n)
      ∧ blocks.length
          = (((chosen_texts ⟨[("body", [some "good", some ""])]⟩ "body").take
              5).filter keep).length
      ∧ n = min (chosen_texts ⟨[("body", [some "good", some ""])]⟩
            "body").length 5
      ∧ analizza_prompt ⟨[("body", [some "good", some ""])]⟩ 5 "body"
          = .ok (build_prompt (String.intercalate "\n\n" blocks) n) :=
  rendered_count_vs_batch_size ⟨[("body", [some "good", some ""])]⟩ 5 "body"
    (by decide) (by decide)

/-! ## C8 — the presenter tolerates missing fields -/

/-- A field that is absent or an array iterates without raising. -/
theorem pyIterList_dget_arr (r : List (String × JValue)) (k : String)
    (h : arrIfPresent (field? r k) = true) :
    ∃ xs, pyIterList (dget r k (.arr [])) = .ok xs := by
  unfold dget
  cases hf : field? r k with
  | none => exact ⟨[], rfl⟩
  | some v =>
    rw [hf] at h
    cases v with
    | arr xs => exact ⟨xs, rfl⟩
    | null => simp [arrIfPresent] at h
    | bool b => simp [arrIfPresent] at h
    | num n => simp [arrIfPresent] at h
    | str s => simp [arrIfPresent] at h
    | obj fs => simp [arrIfPresent] at h

/-- C8: on a result object whose sequence fields are absent or arrays, the
presenter completes without raising; each absent scalar field is printed
with the `N/A` placeholder, and the themes/priorities sections print lines
exactly when their keys are present. -/
theorem presenter_tolerates_missing_fields (r : List (String × JValue))
    (hp : arrIfPresent (field? r "punti_critici") = true)
    (hv : arrIfPresent (field? r "vantaggi_competitivi") = true)
    (ht : arrIfPresent (field? r "temi_ricorrenti") = true)
    (hq : arrIfPresent (field? r "priorita_intervento") = true) :
    ∃ ls, stampa_report r = .ok ls
      ∧ (field? r "sentiment_score" = none →
          "\n🎯 Sentiment Score: N/A/100" ∈ ls)
      ∧ (field? r "sentiment_label" = none → "📈 Sentiment: N/A" ∈ ls)
      ∧ (field? r "numero_recensioni_analizzate" = none →
          "📝 Recensioni analizzate: N/A" ∈ ls)
      ∧ (field? r "consiglio_ingegneristico" = none → "   N/A" ∈ ls)
      ∧ (field? r "strategia_marketing" = none → "   N/A" ∈ ls)
      ∧ (temiSection r = .ok [] ↔ field? r "temi_ricorrenti" = none)
      ∧ (prioSection r = .ok [] ↔ field? r "priorita_intervento" = none) := by
  obtain ⟨ps, hps⟩ := pyIterList_dget_arr r "punti_critici" hp
  obtain ⟨vs, hvs⟩ := pyIterList_dget_arr r "vantaggi_competitivi" hv
  have htemi : ∃ ts, temiSection r = .ok ts
      ∧ (ts = [] ↔ field? r "temi_ricorrenti" = none) := by
    unfold temiSection
    cases hf : field? r "temi_ricorrenti" with
    | none => exact ⟨[], rfl, by simp⟩
    | some v =>
      rw [hf] at ht
      cases v with
      | arr xs =>
        refine ⟨"\n🔍 TEMI RICORRENTI:" :: xs.map (fun t => "   • " ++ pyStr t),
          rfl, by simp⟩
      | null => simp [arrIfPresent] at ht
      | bool b => simp [arrIfPresent] at ht
      | num n => simp [arrIfPresent] at ht
      | str s => simp [arrIfPresent] at ht
      | obj fs => simp [arrIfPresent] at ht
  have hprio : ∃ qs, prioSection r = .ok qs
      ∧ (qs = [] ↔ field? r "priorita_intervento" = none) := by
    unfold prioSection
    cases hf : field? r "priorita_intervento" with
    | none => exact ⟨[], rfl, by simp⟩
    | some v =>
      rw [hf] at hq
      cases v with
      | arr xs =>
        exact ⟨"\n🎯 PRIORITÀ DI INTERVENTO:" ::
          (xs.enumFrom 1).map
            (fun p => "   " ++ toString p.1 ++ ". " ++ pyStr p.2),
          by rfl, by simp⟩
      | null => simp [arrIfPresent] at hq
      | bool b => simp [arrIfPresent] at hq
      | num n => simp [arrIfPresent] at hq
      | str s => simp [arrIfPresent] at hq
      | obj fs => simp [arrIfPresent] at hq
  obtain ⟨ts, hts, htsiff⟩ := htemi
  obtain ⟨qs, hqs, hqsiff⟩ := hprio
  refine ⟨_, by rw [stampa_report, hps, hvs, hts, hqs]; rfl,
    ?_, ?_, ?_, ?_, ?_, ?_, ?_⟩
  · intro habs
    simp [dget, habs, pyStr]
  · intro habs
    simp [dget, habs, pyStr]
  · intro habs
    simp [dget, habs, pyStr]
  · intro habs
    simp [dget, habs, pyStr]
  · intro habs
    simp [dget, habs, pyStr]
  · rw [hts]
    simp only [Except.ok.injEq]
    exact htsiff
  · rw [hqs]
    simp only [Except.ok.injEq]
    exact hqsiff

/-- C8 witness: the empty object `{}` prints with `N/A` placeholders and
without the themes/priorities sections. -/
theorem presenter_tolerates_missing_fields_witness :
    ∃ ls, stampa_report [] = .ok ls
      ∧ (field? [] "sentiment_score" = none →
          "\n🎯 Sentiment Score: N/A/100" ∈ ls)
      ∧ (field? [] "sentiment_label" = none → "📈 Sentiment: N/A" ∈ ls)
      ∧ (field? [] "numero_recensioni_analizzate" = none →
          "📝 Recensioni analizzate: N/A" ∈ ls)
      ∧ (field? [] "consiglio_ingegneristico" = none → "   N/A" ∈ ls)
      ∧ (field? [] "strategia_marketing" = none → "   N/A" ∈ ls)
      ∧ (temiSection [] = .ok [] ↔ field? [] "temi_ricorrenti" = none)
      ∧ (prioSection [] = .ok [] ↔ field? [] "priorita_intervento" = none) :=
  presenter_tolerates_missing_fields [] (by decide) (by decide) (by decide)
    (by decide)

/-! ## C5 — fence stripping round-trips fenced JSON

The lemmas below track occurrences of the three-backtick fence through the
cleaning pipeline. -/

/-- Dropping the head preserves absence of fences. -/
theorem hasTicks_cons_false {c : Char} {l : List Char}
    (h : hasTicks (c :: l) = false) : hasTicks l = false := by
  match l with
  | [] => rfl
  | [x] => rfl
  | x :: y :: r =>
    simp only [hasTicks] at h
    split at h
    · exact absurd h (by simp)
    · exact h

/-- A list that starts with the fence contains a fence. -/
theorem hasTicks_head_triple (r : List Char) :
    hasTicks (btChar :: btChar :: btChar :: r) = true := by
  simp [hasTicks]

/-- Prepending a non-backtick character does not create a fence. -/
theorem hasTicks_cons_ne (c : Char) (l : List Char) (hc : ¬ c = btChar) :
    hasTicks (c :: l) = hasTicks l := by
  match l with
  | [] => rfl
  | [x] => rfl
  | x :: y :: r =>
    simp only [hasTicks]
    rw [if_neg (fun hand => hc hand.1)]

/-- Appending a fence-free suffix whose first character is not a backtick
does not create a fence. -/
theorem hasTicks_append_false {suffix : List Char}
    (hs : hasTicks suffix = false) (hhead : suffix.head? ≠ some btChar) :
    ∀ J, hasTicks J = false → hasTicks (J ++ suffix) = false := by
  intro J
  induction J with
  | nil => intro _; simpa using hs
  | cons c J' ih =>
    intro h
    have h' : hasTicks J' = false := hasTicks_cons_false h
    have hres : hasTicks (J' ++ suffix) = false := ih h'
    cases J' with
    | nil =>
      cases suffix with
      | nil => rfl
      | cons x s =>
        cases s with
        | nil => rfl
        | cons y s' =>
          simp only [List.nil_append, hasTicks]
          rw [if_neg]
          · simpa using hs
          · rintro ⟨-, hx, -⟩
            exact hhead (by simp [hx])
    | cons d J'' =>
      cases J'' with
      | nil =>
        cases suffix with
        | nil => rfl
        | cons x s =>
          simp only [List.cons_append, List.nil_append, hasTicks]
          rw [if_neg]
          · simpa using hres
          · rintro ⟨-, -, hx⟩
            exact hhead (by simp [hx])
      | cons e J3 =>
        simp only [List.cons_append, hasTicks]
        rw [if_neg]
        · simpa using hres
        · rintro ⟨hc, hd, he⟩
          rw [hc, hd, he] at h
          rw [hasTicks_head_triple] at h
          exact Bool.noConfusion h

/-- Removing fences from a fence-free list is the identity. -/
theorem replaceTicks_of_no_ticks :
    ∀ l, hasTicks l = false → replaceTicks l = l
  | [], _ => rfl
  | [_], _ => rfl
  | [_, _], _ => rfl
  | c :: d :: e :: r, h => by
    simp only [replaceTicks]
    rw [if_neg]
    · rw [replaceTicks_of_no_ticks (d :: e :: r) (hasTicks_cons_false h)]
    · rintro ⟨hc, hd, he⟩
      rw [hc, hd, he] at h
      rw [hasTicks_head_triple] at h
      exact Bool.noConfusion h

/-- Unfolding of `splitTicks` at a non-fence head. -/
theorem splitTicks_cons_no_fence (c x y : Char) (r : List Char)
    (hno : ¬ (c = btChar ∧ x = btChar ∧ y = btChar)) :
    splitTicks (c :: x :: y :: r) = consHead c (splitTicks (x :: y :: r)) := by
  simp only [splitTicks]
  rw [if_neg hno]

/-- Splitting `a ++ fence` when `a` is fence-free (even together with the
first two backticks of the suffix) yields exactly the two segments `a` and
`[]`. -/
theorem splitTicks_append_fence :
    ∀ a : List Char, hasTicks (a ++ [btChar, btChar]) = false →
      splitTicks (a ++ [btChar, btChar, btChar]) = [a, []]
  | [], _ => by decide
  | c :: a', h => by
    have h' : hasTicks (a' ++ [btChar, btChar]) = false :=
      hasTicks_cons_false (show hasTicks (c :: (a' ++ [btChar, btChar])) = false
        from h)
    have ihres := splitTicks_append_fence a' h'
    cases a' with
    | nil =>
      have hno : ¬ (c = btChar ∧ btChar = btChar ∧ btChar = btChar) := by
        rintro ⟨hc, -, -⟩
        rw [hc] at h
        simp [hasTicks] at h
      rw [show ([c] ++ [btChar, btChar, btChar] : List Char)
          = c :: btChar :: btChar :: [btChar] from rfl]
      rw [splitTicks_cons_no_fence c btChar btChar [btChar] hno]
      rw [show splitTicks (btChar :: btChar :: [btChar]) = [[], []] by decide]
      rfl
    | cons d a'' =>
      cases a'' with
      | nil =>
        have hno : ¬ (c = btChar ∧ d = btChar ∧ btChar = btChar) := by
          rintro ⟨hc, hd, -⟩
          rw [hc, hd] at h
          simp [hasTicks] at h
        rw [show ([c, d] ++ [btChar, btChar, btChar] : List Char)
            = c :: d :: btChar :: (btChar :: [btChar]) from rfl]
        rw [splitTicks_cons_no_fence c d btChar (btChar :: [btChar]) hno]
        rw [show d :: btChar :: (btChar :: [btChar])
            = [d] ++ [btChar, btChar, btChar] from rfl]
        rw [ihres]
        rfl
      | cons e a3 =>
        have hno : ¬ (c = btChar ∧ d = btChar ∧ e = btChar) := by
          rintro ⟨hc, hd, he⟩
          rw [hc, hd, he] at h
          have hh : hasTicks (btChar :: btChar :: btChar ::
              (a3 ++ [btChar, btChar])) = false := h
          rw [hasTicks_head_triple] at hh
          exact Bool.noConfusion hh
        rw [show ((c :: d :: e :: a3) ++ [btChar, btChar, btChar] : List Char)
            = c :: d :: e :: (a3 ++ [btChar, btChar, btChar]) from rfl]
        rw [splitTicks_cons_no_fence c d e (a3 ++ [btChar, btChar, btChar])
          hno]
        rw [show d :: e :: (a3 ++ [btChar, btChar, btChar])
            = (d :: e :: a3) ++ [btChar, btChar, btChar] from rfl]
        rw [ihres]
        rfl

/-- Stripping is the identity on a list with non-whitespace first and last
characters. -/
theorem pyStripL_noop (c d : Char) (m : List Char) (hc : isPySpace c = false)
    (hd : isPySpace d = false) :
    pyStripL (c :: (m ++ [d])) = c :: (m ++ [d]) := by
  unfold pyStripL
  rw [List.dropWhile_cons_of_neg (by simp [hc])]
  rw [show (c :: (m ++ [d])).reverse = d :: (m.reverse ++ [c]) by simp]
  rw [List.dropWhile_cons_of_neg (by simp [hd])]
  simp

/-- Stripping absorbs a leading whitespace character. -/
theorem pyStripL_cons_space (c : Char) (l : List Char)
    (hc : isPySpace c = true) : pyStripL (c :: l) = pyStripL l := by
  unfold pyStripL
  rw [List.dropWhile_cons_of_pos (by simp [hc])]

/-- Stripping absorbs a trailing whitespace character. -/
theorem pyStripL_append_space (c : Char) (l : List Char)
    (hc : isPySpace c = true) : pyStripL (l ++ [c]) = pyStripL l := by
  unfold pyStripL
  rw [List.dropWhile_append]
  split
  · next hemp =>
    have hl : l.dropWhile isPySpace = [] := by
      simpa using hemp
    simp [hc, hl]
  · rw [show ((l.dropWhile isPySpace) ++ [c]).reverse
        = c :: (l.dropWhile isPySpace).reverse by simp]
    rw [List.dropWhile_cons_of_pos (by simp [hc])]

/-- Unfolding of `splitTicks` at a fence head. -/
theorem splitTicks_fence_cons (r : List Char) :
    splitTicks (btChar :: btChar :: btChar :: r) = [] :: splitTicks r := by
  simp [splitTicks]

/-- C5 counterexample: for the valid JSON text `"```"` (a JSON string whose
content is a fence), the fence-stripping step returns `"` — the split at
`src/analyzer.py:161` cuts at the inner fence — so the enclosed JSON is not
recovered. -/
theorem fence_strip_mangles_inner_fence :
    clean_response ("```json\n" ++ "\"```\"" ++ "\n```") = "\""
    ∧ pyStrip "\"```\"" = "\"```\"" := by
  constructor <;> decide

/-- C5 (amended): for every JSON text `j` that contains no occurrence of the
triple-backtick sequence, the fence-stripping step applied to
`"```json\n" ++ j ++ "\n```"` recovers exactly `j` up to the outer
whitespace trim. -/
theorem fence_roundtrip (j : String) (h : hasTicks j.data = false) :
    clean_response ("```json\n" ++ j ++ "\n```") = pyStrip j := by
  have h1 : hasTicks (j.data ++ ['\n', btChar, btChar]) = false :=
    hasTicks_append_false (by decide) (by decide) j.data h
  have hfull : hasTicks ('j' :: 's' :: 'o' :: 'n' :: '\n' ::
      (j.data ++ ['\n', btChar, btChar])) = false := by
    rw [hasTicks_cons_ne _ _ (by decide), hasTicks_cons_ne _ _ (by decide),
      hasTicks_cons_ne _ _ (by decide), hasTicks_cons_ne _ _ (by decide),
      hasTicks_cons_ne _ _ (by decide)]
    exact h1
  have hsplit := splitTicks_append_fence
    ('j' :: 's' :: 'o' :: 'n' :: '\n' :: (j.data ++ ['\n']))
    (by
      rw [show (('j' :: 's' :: 'o' :: 'n' :: '\n' :: (j.data ++ ['\n']))
          ++ [btChar, btChar] : List Char)
          = 'j' :: 's' :: 'o' :: 'n' :: '\n' ::
              (j.data ++ ['\n', btChar, btChar]) by simp]
      exact hfull)
  have hA : ("```json\n" ++ j ++ "\n```").data
      = btChar :: ((btChar :: btChar :: 'j' :: 's' :: 'o' :: 'n' :: '\n' ::
          (j.data ++ ['\n', btChar, btChar])) ++ [btChar]) := by
    rw [String.data_append, String.data_append]
    rw [show "```json\n".data
        = [btChar, btChar, btChar, 'j', 's', 'o', 'n', '\n'] by decide]
    rw [show "\n```".data = ['\n', btChar, btChar, btChar] by decide]
    simp
  unfold clean_response pyStrip
  refine congrArg String.mk ?_
  rw [hA]
  simp only [clean_responseL]
  rw [pyStripL_noop btChar btChar _ (by decide) (by decide)]
  rw [show (btChar :: ((btChar :: btChar :: 'j' :: 's' :: 'o' :: 'n' :: '\n' ::
      (j.data ++ ['\n', btChar, btChar])) ++ [btChar]) : List Char)
      = btChar :: btChar :: btChar ::
          (('j' :: 's' :: 'o' :: 'n' :: '\n' :: (j.data ++ ['\n']))
            ++ [btChar, btChar, btChar]) by simp]
  rw [if_pos (show tick3.isPrefixOf (btChar :: btChar :: btChar ::
      (('j' :: 's' :: 'o' :: 'n' :: '\n' :: (j.data ++ ['\n']))
        ++ [btChar, btChar, btChar])) = true by simp [tick3, List.isPrefixOf])]
  rw [splitTicks_fence_cons, hsplit]
  rw [show (([[], 'j' :: 's' :: 'o' :: 'n' :: '\n' :: (j.data ++ ['\n']), []] :
      List (List Char)).getD 1 [])
      = 'j' :: 's' :: 'o' :: 'n' :: '\n' :: (j.data ++ ['\n']) from rfl]
  rw [if_pos (show ("json".data).isPrefixOf
      ('j' :: 's' :: 'o' :: 'n' :: '\n' :: (j.data ++ ['\n'])) = true by
    rw [show "json".data = ['j', 's', 'o', 'n'] by decide]
    simp [List.isPrefixOf])]
  rw [show ('j' :: 's' :: 'o' :: 'n' :: '\n' :: (j.data ++ ['\n'])).drop 4
      = '\n' :: (j.data ++ ['\n']) from rfl]
  rw [replaceTicks_of_no_ticks ('\n' :: (j.data ++ ['\n']))
    (by
      rw [hasTicks_cons_ne _ _ (by decide)]
      exact hasTicks_append_false (by decide) (by decide) j.data h)]
  rw [pyStripL_cons_space _ _ (by decide), pyStripL_append_space _ _ (by decide)]

/-- C5 witness: a concrete fenced JSON object round-trips. -/
theorem fence_roundtrip_witness :
    clean_response ("```json\n" ++ "\x7b\"a\": 1\x7d" ++ "\n```")
      = pyStrip "\x7b\"a\": 1\x7d" :=
  fence_roundtrip "\x7b\"a\": 1\x7d" (by decide)

end Analyzer
